import Mathlib

/-!
Shallow embedding of `src/main.py` (GIS Project Starter: TIGER 2020
boundary-and-clip pipeline) and verification of its specification claims.

Modelling conventions:
* Geometries are finite sets of integer points (`Finset (Int × Int)`);
  geometric union and intersection are set union and intersection.  The
  geometry engine itself (geopandas/shapely dissolve and clip internals)
  is an external collaborator, out of scope per the spec.
* A pandas `GeoDataFrame` is a list of typed rows together with a CRS tag.
  Column filters become list filters; `subset.iloc[0]` on a filtered frame
  becomes `List.find?` on the row list.
* Python exceptions become an `Except` result; each distinct `raise` site
  of the program is tagged with the corresponding constructor of `Err`
  (the spec error taxonomy), carrying the message the code builds.
* The filesystem is an association list from path to contents; the
  network is a function from URL to a response.  IO effects (prints) are
  dropped; file writes are modelled as returned values / updated maps.
* Python `str.lower` / `str.upper` / `str.strip` / `str.endswith` /
  `str.zfill` are modelled by the list-based `pyLower` / `pyUpper` /
  `pyTrim` / `pyEndsWith` / `zfill` below, which agree with CPython on
  the ASCII inputs that occur here (CPython's case mapping additionally
  folds non-ASCII letters).  `str.isdigit` is Unicode aware in CPython;
  `pyIsDigit` below reproduces it on ASCII digits and on the non-ASCII
  digit code points used in this development.
-/

namespace GISStarter

/-- Geometry: a finite set of integer points. -/
abbrev Geom := Finset (Int × Int)

/-- Union of a list of geometries (models shapely unary union, the
geometry merge performed by `GeoDataFrame.dissolve`). -/
def unionAll (gs : List Geom) : Geom := gs.foldr (fun g acc => g ∪ acc) ∅

/-- Models CPython `str.lower` character-and-string-wise (identical to
CPython on ASCII; CPython additionally folds non-ASCII letters). -/
def pyLower (s : String) : String :=
  String.mk (s.toList.map Char.toLower)

/-- Models CPython `str.upper` (identical to CPython on ASCII). -/
def pyUpper (s : String) : String :=
  String.mk (s.toList.map Char.toUpper)

/-- Whitespace characters removed by CPython `str.strip`. -/
def isPySpace (c : Char) : Bool :=
  c = ' ' || c = '\t' || c = '\n' || c = '\r' || c = '\x0b' || c = '\x0c'

/-- Models CPython `str.strip` with no argument: drop leading and
trailing whitespace. -/
def pyTrim (s : String) : String :=
  String.mk (((s.toList.dropWhile isPySpace).reverse.dropWhile
    isPySpace).reverse)

/-- Models CPython `str.endswith` for a plain suffix argument. -/
def pyEndsWith (s suffix : String) : Bool :=
  s.toList.reverse.take suffix.toList.length == suffix.toList.reverse

/-- Models CPython `str.zfill`: left-pad with zeros to the given width,
keeping a leading sign in front of the padding. -/
def zfill (width : Nat) (s : String) : String :=
  let l := s.toList
  if width ≤ l.length then s
  else
    let pad := List.replicate (width - l.length) '0'
    match l with
    | c :: rest =>
      if c = '+' || c = '-' then String.mk (c :: (pad ++ rest))
      else String.mk (pad ++ l)
    | [] => String.mk pad

/-- Models CPython `Char`-level `str.isdigit` membership for the code
points appearing in this development: the ASCII digits, the superscript
digits one/two/three, and the Arabic-Indic digits U+0660..U+0669.
CPython accepts further Unicode digit code points in the same way. -/
def pyIsDigit (c : Char) : Bool :=
  c.isDigit || c = '¹' || c = '²' || c = '³' ||
    (0x660 ≤ c.toNat && c.toNat ≤ 0x669)

/-- Models CPython `str.isdigit`: true iff the string is nonempty and
every character is a digit character. -/
def pyIsDigitStr (s : String) : Bool :=
  s.toList != [] && s.toList.all pyIsDigit

/-- Error taxonomy of the program, one constructor per `raise` site kind,
following the spec (section 7).  The Python code raises `RuntimeError`
(download), `FileNotFoundError` (missing shapefile) and `ValueError`
(resolution / validation / empty result); the constructor records which
site raised, and the payload is the message the code builds. -/
inductive Err where
  | download (msg : String) : Err
  | notFound (msg : String) : Err
  | resolution (msg : String) : Err
  | validation (msg : String) : Err
  | emptyResult (msg : String) : Err
deriving DecidableEq

/-- Decidable equality for `Except`, needed so that concrete runs of the
embedded fallible operations can be checked by `decide`. -/
instance {ε α : Type} [DecidableEq ε] [DecidableEq α] :
    DecidableEq (Except ε α) := fun x y =>
  match x, y with
  | .ok a, .ok b =>
    if h : a = b then isTrue (by rw [h])
    else isFalse (fun hc => by cases hc; exact h rfl)
  | .error a, .error b =>
    if h : a = b then isTrue (by rw [h])
    else isFalse (fun hc => by cases hc; exact h rfl)
  | .ok _, .error _ => isFalse (fun hc => by cases hc)
  | .error _, .ok _ => isFalse (fun hc => by cases hc)

/-- Row of the TIGER states dataset: full name, postal abbreviation,
state FIPS code, geometry. -/
structure StateRow where
  NAME : String
  STUSPS : String
  STATEFP : String
  geometry : Geom
deriving DecidableEq

/-- Row of the TIGER counties dataset: 5-digit GEOID and geometry. -/
structure CountyRow where
  GEOID : String
  geometry : Geom
deriving DecidableEq

/-- Row of a per-state TIGER places dataset: place name, state FIPS code,
geometry. -/
structure PlaceRow where
  NAME : String
  STATEFP : String
  geometry : Geom
deriving DecidableEq

/-- A loaded `GeoDataFrame`: a CRS tag and a list of rows, in frame
order. -/
structure GeoFrame (ρ : Type) where
  crs : String
  rows : List ρ
deriving DecidableEq

/-- The result of `dissolve().reset_index(drop=True)` on a matched
subset: a frame whose rows are bare geometries (the non-geometry
attributes play no further role in the program). -/
structure BoundaryGDF where
  crs : String
  rows : List Geom
deriving DecidableEq

/-- Predicate of the `NAME` filter in `resolve_state_fips`:
`states_gdf["NAME"].str.lower() == text.lower()`. -/
def nameMatches (text : String) (r : StateRow) : Bool :=
  pyLower r.NAME == pyLower text

/-- Predicate of the `STUSPS` filter in `resolve_state_fips`:
`states_gdf["STUSPS"].str.upper() == text.upper()`. -/
def stuspsMatches (text : String) (r : StateRow) : Bool :=
  pyUpper r.STUSPS == pyUpper text

/-- Message of the `ValueError` raised by `resolve_state_fips`. -/
def resolveErrMsg (user_input : String) : String :=
  "Could not resolve state \x27" ++ user_input ++ "\x27. " ++
    "Use full name (e.g., Texas) or 2-letter code (e.g., TX)."

/-- Embeds `resolve_state_fips` (src/main.py lines 94-117): trim the
input, filter by case-insensitive full name and take the first row if
any; otherwise filter by case-insensitive postal abbreviation and take
the first row if any; return the matched STATEFP zero-filled to width 2;
otherwise raise `ValueError`. -/
def resolve_state_fips (states_rows : List StateRow) (user_input : String) :
    Except Err String :=
  let text := pyTrim user_input
  match states_rows.find? (nameMatches text) with
  | some row => .ok (zfill 2 row.STATEFP)
  | none =>
    match states_rows.find? (stuspsMatches text) with
    | some row => .ok (zfill 2 row.STATEFP)
    | none => .error (.resolution (resolveErrMsg user_input))

/-- Message of the `ValueError` for a malformed county FIPS code. -/
def fipsValidationMsg : String :=
  "County FIPS must be a 5-digit numeric code, e.g., 48113."

/-- Message of the `ValueError` when the state filter comes back empty. -/
def noStateMsg (boundary_value : String) : String :=
  "No state found for \x27" ++ boundary_value ++ "\x27."

/-- Message of the `ValueError` when no county carries the given GEOID. -/
def noCountyMsg (boundary_value : String) : String :=
  "No county found with FIPS \x27" ++ boundary_value ++ "\x27. " ++
    "Use the 5-digit GEOID value."

/-- Message of the `ValueError` for an unsupported boundary type. -/
def badTypeMsg : String :=
  "build_boundary only supports \x27state\x27 or \x27fips\x27 here."

/-- Embeds `build_boundary` (src/main.py lines 120-164).  `states` and
`counties` are the frames that `gpd.read_file` yields for the two
shapefile paths; the county frame is consulted only on the `fips` branch
after validation, as in the code. -/
def build_boundary (boundary_type boundary_value : String)
    (states : GeoFrame StateRow) (counties : GeoFrame CountyRow) :
    Except Err BoundaryGDF :=
  let bt := pyTrim (pyLower boundary_type)
  let bv := pyTrim boundary_value
  if bt = "state" then
    match resolve_state_fips states.rows bv with
    | .error e => .error e
    | .ok state_fips =>
      let boundary := states.rows.filter (fun r => r.STATEFP == state_fips)
      if boundary.isEmpty then .error (.emptyResult (noStateMsg bv))
      else .ok ⟨states.crs, [unionAll (boundary.map (fun r => r.geometry))]⟩
  else if bt = "fips" then
    if bv.length != 5 || !pyIsDigitStr bv then
      .error (.validation fipsValidationMsg)
    else
      let subset := counties.rows.filter (fun r => r.GEOID == bv)
      if subset.isEmpty then .error (.emptyResult (noCountyMsg bv))
      else .ok ⟨counties.crs, [unionAll (subset.map (fun r => r.geometry))]⟩
  else .error (.validation badTypeMsg)

/-- Message of the `ValueError` when no place matches in the city
variant. -/
def noPlaceMsg (city_name state_input state_fips : String) : String :=
  "No place named \x27" ++ city_name ++ "\x27 found in state \x27" ++
    state_input ++ "\x27 (STATEFP=" ++ state_fips ++
    "). Remember this uses Census \x27place\x27 names."

/-- Embeds `build_city_boundary` (src/main.py lines 167-207).
`placesFor` maps a state FIPS code to the frame obtained by downloading,
extracting and reading that state's PLACE shapefile (the fetch itself is
the Fetcher/Extractor, modelled separately). -/
def build_city_boundary (city_name state_input : String)
    (states : GeoFrame StateRow) (placesFor : String → GeoFrame PlaceRow) :
    Except Err BoundaryGDF :=
  match resolve_state_fips states.rows state_input with
  | .error e => .error e
  | .ok state_fips =>
    let places := placesFor state_fips
    let subset := places.rows.filter
      (fun r => (pyLower r.NAME == pyLower (pyTrim city_name)) &&
                (r.STATEFP == state_fips))
    if subset.isEmpty then
      .error (.emptyResult (noPlaceMsg city_name state_input state_fips))
    else .ok ⟨places.crs, [unionAll (subset.map (fun r => r.geometry))]⟩

/-- A record of a clippable layer (roads, counties): an identity tag for
the record plus its geometry.  The tag lets theorems say that every
output feature comes from an input feature. -/
structure FeatRow where
  fid : Nat
  geometry : Geom
deriving DecidableEq

/-- A loaded clippable layer: CRS plus records. -/
structure Layer where
  crs : String
  rows : List FeatRow
deriving DecidableEq

/-- Models `gpd.clip(base, boundary)`: every record of `base` is
intersected with the boundary mask, and records with an empty
intersection are dropped. -/
def gpdClip (base_rows : List FeatRow) (mask : Geom) : List FeatRow :=
  base_rows.filterMap (fun r =>
    let g := r.geometry ∩ mask
    if g = ∅ then none else some ⟨r.fid, g⟩)

/-- Embeds `clip_layer_to_boundary` (src/main.py lines 210-229).
`toCrs` is the external reprojection primitive (`GeoDataFrame.to_crs`),
applied row-wise; `base` is the frame read from the layer shapefile.  If
the CRSs differ the boundary is reprojected to the base CRS, otherwise
it is used unchanged; the base is never reprojected.  The returned layer
is the frame written to the output path. -/
def clip_layer_to_boundary (toCrs : String → Geom → Geom)
    (base : Layer) (boundary_gdf : BoundaryGDF) : Layer :=
  let boundary :=
    if base.crs ≠ boundary_gdf.crs then
      (⟨base.crs, boundary_gdf.rows.map (toCrs base.crs)⟩ : BoundaryGDF)
    else boundary_gdf
  ⟨base.crs, gpdClip base.rows (unionAll boundary.rows)⟩

/-- The on-disk filesystem, as an association list from path to file
contents; the first binding for a path is its current contents. -/
abbrev FS := List (String × String)

/-- The download folder constant `DOWNLOAD_FOLDER` of the program. -/
def DOWNLOAD_FOLDER : String := "GIS_Project_Starter/downloads"

/-- The clipped-output folder constant `CLIPPED_FOLDER` of the
program. -/
def CLIPPED_FOLDER : String := "GIS_Project_Starter/clipped"

/-- Local cache path of a named archive: `downloads/<name>.zip`. -/
def downloadPath (name : String) : String :=
  DOWNLOAD_FOLDER ++ "/" ++ name ++ ".zip"

/-- An HTTP response: status code, body, and the text of the
`requests.HTTPError` that `raise_for_status` would raise for it. -/
structure Response where
  status : Nat
  content : String
  errText : String
deriving DecidableEq

/-- Statuses for which `requests.Response.raise_for_status` raises: the
4xx client-error and 5xx server-error ranges. -/
def isErrorStatus (status : Nat) : Bool :=
  400 ≤ status && status < 600

/-- Outcome of one `download_zip` call: the returned path or raised
error, the filesystem afterwards, and how many network requests were
made. -/
structure FetchResult where
  result : Except Err String
  fs : FS
  networkCalls : Nat
deriving DecidableEq

/-- Message of the `RuntimeError` raised on a failed download. -/
def downloadErrMsg (name url errText : String) : String :=
  "Failed to download " ++ name ++ " (" ++ url ++ "): " ++ errText

/-- Embeds `download_zip` (src/main.py lines 38-61).  If
`downloads/<name>.zip` exists, its path is returned at once with no
network request.  Otherwise the URL is fetched; a 4xx/5xx status raises
the download error before the output file is opened, leaving the
filesystem unchanged; on success the body is streamed to the cache path
and the path returned. -/
def download_zip (net : String → Response) (fs : FS) (name url : String) :
    FetchResult :=
  let local_path := downloadPath name
  if (fs.lookup local_path).isSome then
    ⟨.ok local_path, fs, 0⟩
  else
    let resp := net url
    if isErrorStatus resp.status then
      ⟨.error (.download (downloadErrMsg name url resp.errText)), fs, 1⟩
    else
      ⟨.ok local_path, (local_path, resp.content) :: fs, 1⟩

/-- One member of a zip archive: directory part of its path inside the
archive (empty for top level), file name, contents. -/
structure ZipEntry where
  dir : String
  fname : String
  content : String
deriving DecidableEq

/-- Extraction folder of a named archive: `downloads/<name>/`. -/
def extractFolder (name : String) : String :=
  DOWNLOAD_FOLDER ++ "/" ++ name

/-- Models `os.path.join` for the nonempty roots used here. -/
def joinPath (root fname : String) : String := root ++ "/" ++ fname

/-- Directory that an archive entry lands in after extraction under
`folder`. -/
def entryRoot (folder dir : String) : String :=
  if dir = "" then folder else folder ++ "/" ++ dir

/-- The `(root, filename)` pairs that `os.walk` yields over the
extraction folder right after `extractall`, in traversal order (which
for a fresh extraction lists exactly the archive's members). -/
def walkListing (folder : String) (archive : List ZipEntry) :
    List (String × String) :=
  archive.map (fun e => (entryRoot folder e.dir, e.fname))

/-- Embeds `find_shapefile` (src/main.py lines 85-91): the first entry
of the walk whose lowercased file name ends in `.shp`, joined with its
root, else `none`. -/
def find_shapefile (listing : List (String × String)) : Option String :=
  (listing.find? (fun e => pyEndsWith (pyLower e.2) ".shp")).map
    (fun e => joinPath e.1 e.2)

/-- Message of the `FileNotFoundError` when extraction yields no
shapefile. -/
def noShpMsg (extract_folder name : String) : String :=
  "No .shp found in " ++ extract_folder ++ " for " ++ name

/-- Outcome of one `unzip_zip` call: the returned shapefile path or
raised error, and the filesystem after extraction. -/
structure UnzipResult where
  result : Except Err String
  fs : FS
deriving DecidableEq

/-- Embeds `unzip_zip` (src/main.py lines 64-82): extract every archive
member into `downloads/<name>/`, then return the first `.shp` found by
the recursive walk, or raise `FileNotFoundError` naming the extraction
folder.  Extraction happens before the search either way. -/
def unzip_zip (fs : FS) (name : String) (archive : List ZipEntry) :
    UnzipResult :=
  let extract_folder := extractFolder name
  let fs2 : FS :=
    archive.map
      (fun e => (joinPath (entryRoot extract_folder e.dir) e.fname,
                 e.content)) ++ fs
  match find_shapefile (walkListing extract_folder archive) with
  | some shp_path => ⟨.ok shp_path, fs2⟩
  | none => ⟨.error (.notFound (noShpMsg extract_folder name)), fs2⟩

/-- One `try: clip_layer_to_boundary(...) except Exception as e: print`
block of `main` (src/main.py lines 288-296), over the outcome the clip
attempt would have: the report line the run prints for that layer.  A
success prints the saved-file line; a failure is caught and printed,
never propagated. -/
def attemptClip (label outPath : String) (outcome : Except String Unit) :
    List String :=
  match outcome with
  | .ok _ => ["Saved clipped file: " ++ outPath]
  | .error e => ["Error clipping " ++ label ++ ": " ++ e]

/-- Embeds the clipping phase of `main` (src/main.py lines 286-296): the
roads clip attempt followed unconditionally by the counties clip
attempt, each wrapped in its own catch-and-print block. -/
def clipPhase (roadsOutcome countiesOutcome : Except String Unit) :
    List String :=
  attemptClip "roads" (CLIPPED_FOLDER ++ "/roads_clipped.shp") roadsOutcome
    ++ attemptClip "counties" (CLIPPED_FOLDER ++ "/counties_clipped.shp")
        countiesOutcome

/-- Spec-side predicate, for claim comparison only: the string matches
`^\d{5}$` read over ASCII, i.e. consists of exactly five ASCII decimal
digits. -/
def asciiFiveDigits (s : String) : Bool :=
  s.length == 5 && s.toList.all Char.isDigit

/-- Demo state row used by concrete witnesses. -/
def texasRow : StateRow := ⟨"Texas", "TX", "48", {(0, 0), (1, 0), (0, 1)}⟩

/-- Second demo state row used by concrete witnesses. -/
def alabamaRow : StateRow := ⟨"Alabama", "AL", "01", {(5, 5)}⟩

/-- Demo states frame used by concrete witnesses. -/
def demoStates : GeoFrame StateRow := ⟨"EPSG:4269", [texasRow, alabamaRow]⟩

/-- Demo county row used by concrete witnesses. -/
def dallasCounty : CountyRow := ⟨"48113", {(0, 0), (2, 2)}⟩

/-- Demo counties frame used by concrete witnesses. -/
def demoCounties : GeoFrame CountyRow := ⟨"EPSG:4269", [dallasCounty]⟩

/-- County row whose GEOID is five superscript-two characters; CPython
`str.isdigit` accepts each of them. -/
def weirdCounty : CountyRow := ⟨"²²²²²", {(9, 9)}⟩

/-- Counties frame containing only `weirdCounty`. -/
def weirdCounties : GeoFrame CountyRow := ⟨"EPSG:4269", [weirdCounty]⟩

/-- Demo place row used by concrete witnesses. -/
def dallasPlace : PlaceRow := ⟨"Dallas", "48", {(0, 0), (1, 0)}⟩

/-- Demo places frame used by concrete witnesses. -/
def demoPlaces : GeoFrame PlaceRow := ⟨"EPSG:4269", [dallasPlace]⟩

/-- Concrete reprojection used by witnesses: shift east by 100. -/
def demoToCrs : String → Geom → Geom :=
  fun _ g => g.image (fun p => (p.1 + 100, p.2))

/-- Demo clippable layer used by concrete witnesses, in a CRS differing
from the demo boundary's. -/
def demoLayer : Layer :=
  ⟨"EPSG:3857", [⟨0, {(100, 0), (7, 7)}⟩, ⟨1, {(50, 50)}⟩]⟩

/-- Demo dissolved boundary used by concrete witnesses. -/
def demoBoundary : BoundaryGDF := ⟨"EPSG:4269", [({(0, 0), (1, 0)} : Geom)]⟩

/-!  Helper lemmas shared by the claim theorems. -/

/-- A string that is already two characters long is unchanged by
`zfill 2`. -/
theorem zfill_two_of_length_two (s : String) (h : s.toList.length = 2) :
    zfill 2 s = s := by
  have h2 : 2 ≤ s.toList.length := by omega
  simp only [zfill]
  rw [if_pos h2]

/-- Every list is the `toList` of the string it makes. -/
theorem toList_mk (l : List Char) : (String.mk l).toList = l := rfl

/-- Zero-filling to width 2 yields at least two characters. -/
theorem two_le_zfill_two_length (s : String) :
    2 ≤ (zfill 2 s).toList.length := by
  by_cases h : 2 ≤ s.toList.length
  · simp only [zfill]
    rw [if_pos h]
    exact h
  · simp only [zfill]
    rw [if_neg h]
    rcases hl : s.toList with _ | ⟨c, rest⟩
    · simp [toList_mk]
    · by_cases hs : (c = '+' || c = '-') = true
      · simp [hs, toList_mk] at h ⊢
        omega
      · simp [hs, toList_mk] at h ⊢
        omega

/-- If the NAME pass of `resolve_state_fips` finds a row, that row's
zero-filled STATEFP is returned. -/
theorem resolve_ok_of_name_found (rows : List StateRow) (input : String)
    (r : StateRow) (h : rows.find? (nameMatches (pyTrim input)) = some r) :
    resolve_state_fips rows input = .ok (zfill 2 r.STATEFP) := by
  unfold resolve_state_fips
  simp [h]

/-- If the NAME pass finds nothing and the STUSPS pass finds a row, that
row's zero-filled STATEFP is returned. -/
theorem resolve_ok_of_stusps_found (rows : List StateRow) (input : String)
    (r : StateRow) (h1 : rows.find? (nameMatches (pyTrim input)) = none)
    (h2 : rows.find? (stuspsMatches (pyTrim input)) = some r) :
    resolve_state_fips rows input = .ok (zfill 2 r.STATEFP) := by
  unfold resolve_state_fips
  simp [h1, h2]

/-- If both passes find nothing, `resolve_state_fips` raises the
resolution error. -/
theorem resolve_error_of_none_found (rows : List StateRow) (input : String)
    (h1 : rows.find? (nameMatches (pyTrim input)) = none)
    (h2 : rows.find? (stuspsMatches (pyTrim input)) = none) :
    resolve_state_fips rows input = .error (.resolution (resolveErrMsg input)) := by
  unfold resolve_state_fips
  simp [h1, h2]

/-- A successful resolution always comes from a matching row of the
dataset and is its zero-filled STATEFP. -/
theorem resolve_ok_shape (rows : List StateRow) (input : String) (c : String)
    (h : resolve_state_fips rows input = .ok c) :
    ∃ r ∈ rows, (nameMatches (pyTrim input) r = true ∨
      stuspsMatches (pyTrim input) r = true) ∧ c = zfill 2 r.STATEFP := by
  unfold resolve_state_fips at h
  rcases h1 : rows.find? (nameMatches (pyTrim input)) with _ | r
  · rcases h2 : rows.find? (stuspsMatches (pyTrim input)) with _ | r
    · simp [h1, h2] at h
    · simp [h1, h2] at h
      exact ⟨r, List.mem_of_find?_eq_some h2, Or.inr (List.find?_some h2),
        h.symm⟩
  · simp [h1] at h
    exact ⟨r, List.mem_of_find?_eq_some h1, Or.inl (List.find?_some h1),
      h.symm⟩

/-- A failed resolution is always the resolution error, and means both
passes found nothing. -/
theorem resolve_error_shape (rows : List StateRow) (input : String) (e : Err)
    (h : resolve_state_fips rows input = .error e) :
    e = .resolution (resolveErrMsg input) ∧
    rows.find? (nameMatches (pyTrim input)) = none ∧
    rows.find? (stuspsMatches (pyTrim input)) = none := by
  unfold resolve_state_fips at h
  rcases h1 : rows.find? (nameMatches (pyTrim input)) with _ | r
  · rcases h2 : rows.find? (stuspsMatches (pyTrim input)) with _ | r
    · simp [h1, h2] at h
      exact ⟨h.symm, rfl, rfl⟩
    · simp [h1, h2] at h
  · simp [h1] at h

/-- Unfolding of `build_boundary` on the `state` branch (the type tag
normalises to `"state"` by computation). -/
theorem build_boundary_state_eq (v : String) (states : GeoFrame StateRow)
    (counties : GeoFrame CountyRow) :
    build_boundary "state" v states counties =
      (match resolve_state_fips states.rows (pyTrim v) with
       | .error e => .error e
       | .ok state_fips =>
         if (states.rows.filter (fun r => r.STATEFP == state_fips)).isEmpty
         then .error (.emptyResult (noStateMsg (pyTrim v)))
         else .ok ⟨states.crs, [unionAll ((states.rows.filter
           (fun r => r.STATEFP == state_fips)).map (fun r => r.geometry))]⟩) :=
  rfl

/-- Unfolding of `build_boundary` on the `fips` branch. -/
theorem build_boundary_fips_eq (v : String) (states : GeoFrame StateRow)
    (counties : GeoFrame CountyRow) :
    build_boundary "fips" v states counties =
      (if ((pyTrim v).length != 5 || !pyIsDigitStr (pyTrim v)) then
        .error (.validation fipsValidationMsg)
      else if (counties.rows.filter (fun r => r.GEOID == pyTrim v)).isEmpty
      then .error (.emptyResult (noCountyMsg (pyTrim v)))
      else .ok ⟨counties.crs, [unionAll ((counties.rows.filter
        (fun r => r.GEOID == pyTrim v)).map (fun r => r.geometry))]⟩) :=
  rfl

/-- On the `state` branch, a successful resolution reduces
`build_boundary` to the filter-and-dissolve step. -/
theorem build_boundary_state_ok (v : String) (states : GeoFrame StateRow)
    (counties : GeoFrame CountyRow) (fips : String)
    (hres : resolve_state_fips states.rows (pyTrim v) = .ok fips) :
    build_boundary "state" v states counties =
      (if (states.rows.filter (fun r => r.STATEFP == fips)).isEmpty
       then .error (.emptyResult (noStateMsg (pyTrim v)))
       else .ok ⟨states.crs, [unionAll ((states.rows.filter
         (fun r => r.STATEFP == fips)).map (fun r => r.geometry))]⟩) := by
  rw [build_boundary_state_eq, hres]

/-- On the `state` branch, a failed resolution propagates its error. -/
theorem build_boundary_state_err (v : String) (states : GeoFrame StateRow)
    (counties : GeoFrame CountyRow) (e : Err)
    (hres : resolve_state_fips states.rows (pyTrim v) = .error e) :
    build_boundary "state" v states counties = .error e := by
  rw [build_boundary_state_eq, hres]

/-- In `build_city_boundary`, a successful resolution reduces the build
to the filter-and-dissolve step on that state's places frame. -/
theorem build_city_boundary_ok (cn si : String) (states : GeoFrame StateRow)
    (placesFor : String → GeoFrame PlaceRow) (fips : String)
    (hres : resolve_state_fips states.rows si = .ok fips) :
    build_city_boundary cn si states placesFor =
      (if ((placesFor fips).rows.filter (fun r =>
          (pyLower r.NAME == pyLower (pyTrim cn)) &&
            (r.STATEFP == fips))).isEmpty
       then .error (.emptyResult (noPlaceMsg cn si fips))
       else .ok ⟨(placesFor fips).crs, [unionAll (((placesFor fips).rows.filter
         (fun r => (pyLower r.NAME == pyLower (pyTrim cn)) &&
           (r.STATEFP == fips))).map (fun r => r.geometry))]⟩) := by
  unfold build_city_boundary
  rw [hres]

/-!  Claim theorems. -/

/-- C1: for every state dataset and user input, `resolve_state_fips`
first tries a case-insensitive exact match of the trimmed input against
the full name, and only if no name matches tries a case-insensitive
exact match against the postal abbreviation; on a match it returns that
row's STATEFP zero-filled to 2 characters; it raises the resolution
error, and never returns a default, exactly when neither pass matches
any row. -/
theorem c1_resolver_policy (rows : List StateRow) (input : String) :
    (∀ r, rows.find? (nameMatches (pyTrim input)) = some r →
        resolve_state_fips rows input = .ok (zfill 2 r.STATEFP))
  ∧ (rows.find? (nameMatches (pyTrim input)) = none →
      ∀ r, rows.find? (stuspsMatches (pyTrim input)) = some r →
        resolve_state_fips rows input = .ok (zfill 2 r.STATEFP))
  ∧ ((∃ e, resolve_state_fips rows input = .error e) ↔
      ((∀ r ∈ rows, nameMatches (pyTrim input) r = false) ∧
       (∀ r ∈ rows, stuspsMatches (pyTrim input) r = false)))
  ∧ (∀ e, resolve_state_fips rows input = .error e →
      e = .resolution (resolveErrMsg input))
  ∧ (∀ c, resolve_state_fips rows input = .ok c →
      ∃ r ∈ rows, (nameMatches (pyTrim input) r = true ∨
        stuspsMatches (pyTrim input) r = true) ∧
        c = zfill 2 r.STATEFP ∧ 2 ≤ c.toList.length) := by
  refine ⟨fun r h => resolve_ok_of_name_found rows input r h,
    fun h1 r h2 => resolve_ok_of_stusps_found rows input r h1 h2, ?_, ?_, ?_⟩
  · constructor
    · rintro ⟨e, he⟩
      obtain ⟨-, h1, h2⟩ := resolve_error_shape rows input e he
      rw [List.find?_eq_none] at h1 h2
      exact ⟨fun r hr => by simpa using h1 r hr,
        fun r hr => by simpa using h2 r hr⟩
    · rintro ⟨h1, h2⟩
      refine ⟨.resolution (resolveErrMsg input),
        resolve_error_of_none_found rows input ?_ ?_⟩
      · exact List.find?_eq_none.2 (fun r hr => by simp [h1 r hr])
      · exact List.find?_eq_none.2 (fun r hr => by simp [h2 r hr])
  · exact fun e he => (resolve_error_shape rows input e he).1
  · intro c hc
    obtain ⟨r, hr, hm, hcz⟩ := resolve_ok_shape rows input c hc
    exact ⟨r, hr, hm, hcz, hcz ▸ two_le_zfill_two_length r.STATEFP⟩

/-- Witness for C1 on a concrete two-state dataset: a padded-whitespace
full-name lookup, an abbreviation lookup, and an unresolvable input. -/
theorem c1_resolver_policy_witness :
    resolve_state_fips demoStates.rows " texas " = .ok (zfill 2 texasRow.STATEFP)
  ∧ resolve_state_fips demoStates.rows "TX" = .ok (zfill 2 texasRow.STATEFP)
  ∧ (∃ e, resolve_state_fips demoStates.rows "zz" = .error e) :=
  ⟨(c1_resolver_policy demoStates.rows " texas ").1 texasRow (by decide),
   (c1_resolver_policy demoStates.rows "TX").2.1 (by decide) texasRow
     (by decide),
   ((c1_resolver_policy demoStates.rows "zz").2.2.1).2
     ⟨by decide, by decide⟩⟩

/-- C7: in a dataset where names determine the state code, abbreviations
determine the state code, and no full name collides with the queried
abbreviation, resolving a state's full name and resolving its postal
abbreviation, each in any letter case and padding, return the same
2-digit code. -/
theorem c7_name_abbr_agree (rows : List StateRow) (r : StateRow)
    (hmem : r ∈ rows) (inName inAbbr : String)
    (hn : pyLower (pyTrim inName) = pyLower r.NAME)
    (ha : pyUpper (pyTrim inAbbr) = pyUpper r.STUSPS)
    (hNameCode : ∀ r' ∈ rows, pyLower r'.NAME = pyLower r.NAME →
      r'.STATEFP = r.STATEFP)
    (hAbbrCode : ∀ r' ∈ rows, pyUpper r'.STUSPS = pyUpper r.STUSPS →
      r'.STATEFP = r.STATEFP)
    (hNoClash : ∀ r' ∈ rows, pyLower r'.NAME ≠ pyLower (pyTrim inAbbr)) :
    resolve_state_fips rows inName = .ok (zfill 2 r.STATEFP) ∧
    resolve_state_fips rows inAbbr = .ok (zfill 2 r.STATEFP) := by
  constructor
  · have hsome : (rows.find? (nameMatches (pyTrim inName))).isSome := by
      refine List.find?_isSome.2 ⟨r, hmem, ?_⟩
      simp [nameMatches, hn]
    rcases hfind : rows.find? (nameMatches (pyTrim inName)) with _ | r'
    · rw [hfind] at hsome; simp at hsome
    · have hp := List.find?_some hfind
      have hmem' := List.mem_of_find?_eq_some hfind
      have hname : pyLower r'.NAME = pyLower r.NAME := by
        have : pyLower r'.NAME = pyLower (pyTrim inName) := by
          simpa [nameMatches] using hp
        rw [this, hn]
      rw [resolve_ok_of_name_found rows inName r' hfind,
        hNameCode r' hmem' hname]
  · have hnone : rows.find? (nameMatches (pyTrim inAbbr)) = none :=
      List.find?_eq_none.2 (fun r' hr' => by
        simp [nameMatches]
        exact hNoClash r' hr')
    have hsome : (rows.find? (stuspsMatches (pyTrim inAbbr))).isSome := by
      refine List.find?_isSome.2 ⟨r, hmem, ?_⟩
      simp [stuspsMatches, ha]
    rcases hfind : rows.find? (stuspsMatches (pyTrim inAbbr)) with _ | r'
    · rw [hfind] at hsome; simp at hsome
    · have hp := List.find?_some hfind
      have hmem' := List.mem_of_find?_eq_some hfind
      have habbr : pyUpper r'.STUSPS = pyUpper r.STUSPS := by
        have : pyUpper r'.STUSPS = pyUpper (pyTrim inAbbr) := by
          simpa [stuspsMatches] using hp
        rw [this, ha]
      rw [resolve_ok_of_stusps_found rows inAbbr r' hnone hfind,
        hAbbrCode r' hmem' habbr]

/-- Witness for C7 on the concrete two-state dataset: `" Texas "` and
`"tx"` both resolve to `"48"`. -/
theorem c7_name_abbr_agree_witness :
    resolve_state_fips demoStates.rows " Texas " = .ok (zfill 2 texasRow.STATEFP)
  ∧ resolve_state_fips demoStates.rows "tx" = .ok (zfill 2 texasRow.STATEFP) :=
  c7_name_abbr_agree demoStates.rows texasRow (by decide) " Texas " "tx"
    (by decide) (by decide) (by decide) (by decide) (by decide)

/-- C2 counterexample: the five-character input made of superscript-two
characters (U+00B2) consists of no ASCII decimal digits, so it does not
match `^\d{5}$` as the claim reads it (nor Python's Unicode `\d`, since
U+00B2 is not in category Nd); yet no validation error is raised: CPython
`str.isdigit` accepts every character, the county dataset is queried,
and a boundary is returned. -/
theorem c2_fips_validation_counterexample :
    asciiFiveDigits "²²²²²" = false ∧
    build_boundary "fips" "²²²²²" demoStates weirdCounties =
      .ok ⟨"EPSG:4269", [weirdCounty.geometry ∪ ∅]⟩ := by
  decide

/-- C2 (amended): a county-FIPS request raises the validation error,
with no dependence on the county dataset (read only afterwards), exactly
when the trimmed input is not five characters long with every character
accepted by CPython `str.isdigit`; inputs passing that check proceed to
the exact-GEOID filter of the county dataset. -/
theorem c2_fips_validation (v : String) (states : GeoFrame StateRow) :
    (¬ ((pyTrim v).length = 5 ∧ pyIsDigitStr (pyTrim v) = true) →
      ∀ counties : GeoFrame CountyRow,
        build_boundary "fips" v states counties =
          .error (.validation fipsValidationMsg))
  ∧ (((pyTrim v).length = 5 ∧ pyIsDigitStr (pyTrim v) = true) →
      ∀ counties : GeoFrame CountyRow,
        build_boundary "fips" v states counties =
          (if (counties.rows.filter (fun r => r.GEOID == pyTrim v)).isEmpty
           then .error (.emptyResult (noCountyMsg (pyTrim v)))
           else .ok ⟨counties.crs,
             [unionAll ((counties.rows.filter
               (fun r => r.GEOID == pyTrim v)).map (fun r => r.geometry))]⟩)) := by
  constructor
  · intro hbad counties
    have hcond : ((pyTrim v).length != 5 || !pyIsDigitStr (pyTrim v)) = true := by
      rcases Decidable.em ((pyTrim v).length = 5) with h5 | h5
      · rcases hdig : pyIsDigitStr (pyTrim v) with _ | _
        · simp [hdig]
        · exact absurd ⟨h5, hdig⟩ hbad
      · simp [h5]
    rw [build_boundary_fips_eq, if_pos hcond]
  · intro hgood counties
    have hcond : ((pyTrim v).length != 5 || !pyIsDigitStr (pyTrim v)) = false := by
      simp [hgood.1, hgood.2]
    rw [build_boundary_fips_eq, if_neg (by simp [hcond])]

/-- Witness for C2 (amended): a three-digit input fails validation with
the validation error on the concrete dataset; a valid five-digit input
reaches the GEOID filter and dissolves the matching county. -/
theorem c2_fips_validation_witness :
    build_boundary "fips" " 123" demoStates demoCounties =
      .error (.validation fipsValidationMsg)
  ∧ build_boundary "fips" "48113" demoStates demoCounties =
      .ok ⟨"EPSG:4269", [dallasCounty.geometry ∪ ∅]⟩ :=
  ⟨(c2_fips_validation " 123" demoStates).1 (by decide) demoCounties,
   ((c2_fips_validation "48113" demoStates).2 (by decide) demoCounties).trans
     (by decide)⟩

/-- C3: in each boundary variant (state, county-FIPS, city), once
control reaches the row filter, an empty filter result raises the
empty-result error and no boundary is produced, while a filter yielding
N ≥ 1 rows produces exactly one output record whose geometry is the
dissolved union of the N matching rows' geometries. -/
theorem c3_dissolve_single (states : GeoFrame StateRow)
    (counties : GeoFrame CountyRow) (placesFor : String → GeoFrame PlaceRow)
    (v cn si : String) :
    (∀ fips, resolve_state_fips states.rows (pyTrim v) = .ok fips →
      ((states.rows.filter (fun r => r.STATEFP == fips) = [] →
          build_boundary "state" v states counties =
            .error (.emptyResult (noStateMsg (pyTrim v))))
        ∧ (states.rows.filter (fun r => r.STATEFP == fips) ≠ [] →
            build_boundary "state" v states counties =
              .ok ⟨states.crs, [unionAll ((states.rows.filter
                (fun r => r.STATEFP == fips)).map (fun r => r.geometry))]⟩)))
  ∧ ((pyTrim v).length = 5 → pyIsDigitStr (pyTrim v) = true →
      ((counties.rows.filter (fun r => r.GEOID == pyTrim v) = [] →
          build_boundary "fips" v states counties =
            .error (.emptyResult (noCountyMsg (pyTrim v))))
        ∧ (counties.rows.filter (fun r => r.GEOID == pyTrim v) ≠ [] →
            build_boundary "fips" v states counties =
              .ok ⟨counties.crs, [unionAll ((counties.rows.filter
                (fun r => r.GEOID == pyTrim v)).map (fun r => r.geometry))]⟩)))
  ∧ (∀ fips, resolve_state_fips states.rows si = .ok fips →
      (((placesFor fips).rows.filter (fun r =>
            (pyLower r.NAME == pyLower (pyTrim cn)) &&
              (r.STATEFP == fips)) = [] →
          build_city_boundary cn si states placesFor =
            .error (.emptyResult (noPlaceMsg cn si fips)))
        ∧ ((placesFor fips).rows.filter (fun r =>
            (pyLower r.NAME == pyLower (pyTrim cn)) &&
              (r.STATEFP == fips)) ≠ [] →
            build_city_boundary cn si states placesFor =
              .ok ⟨(placesFor fips).crs, [unionAll (((placesFor fips).rows.filter
                (fun r => (pyLower r.NAME == pyLower (pyTrim cn)) &&
                  (r.STATEFP == fips))).map (fun r => r.geometry))]⟩))) := by
  refine ⟨?_, ?_, ?_⟩
  · intro fips hres
    constructor
    · intro hempty
      rw [build_boundary_state_ok v states counties fips hres,
        if_pos (List.isEmpty_iff.2 hempty)]
    · intro hne
      rw [build_boundary_state_ok v states counties fips hres,
        if_neg (fun hc => hne (List.isEmpty_iff.1 hc))]
  · intro h5 hdig
    have hcond : ((pyTrim v).length != 5 || !pyIsDigitStr (pyTrim v)) = false := by
      simp [h5, hdig]
    constructor
    · intro hempty
      rw [build_boundary_fips_eq, if_neg (by simp [hcond]),
        if_pos (List.isEmpty_iff.2 hempty)]
    · intro hne
      rw [build_boundary_fips_eq, if_neg (by simp [hcond]),
        if_neg (fun hc => hne (List.isEmpty_iff.1 hc))]
  · intro fips hres
    constructor
    · intro hempty
      rw [build_city_boundary_ok cn si states placesFor fips hres,
        if_pos (List.isEmpty_iff.2 hempty)]
    · intro hne
      rw [build_city_boundary_ok cn si states placesFor fips hres,
        if_neg (fun hc => hne (List.isEmpty_iff.1 hc))]

/-- Witness for C3 on concrete data: a matched state dissolves to one
record carrying its union geometry; an unmatched county FIPS raises the
empty-result error; a matched city dissolves to one record. -/
theorem c3_dissolve_single_witness :
    build_boundary "state" "TX" demoStates demoCounties =
      .ok ⟨"EPSG:4269", [({(0, 0), (1, 0), (0, 1)} : Geom)]⟩
  ∧ build_boundary "fips" "00000" demoStates demoCounties =
      .error (.emptyResult (noCountyMsg "00000"))
  ∧ build_city_boundary "dallas" "TX" demoStates (fun _ => demoPlaces) =
      .ok ⟨"EPSG:4269", [({(0, 0), (1, 0)} : Geom)]⟩ :=
  ⟨(((c3_dissolve_single demoStates demoCounties (fun _ => demoPlaces)
      "TX" "dallas" "TX").1 "48" (by decide)).2 (by decide)).trans (by decide),
   ((((c3_dissolve_single demoStates demoCounties (fun _ => demoPlaces)
      "00000" "dallas" "TX").2.1 (by decide) (by decide)).1
        (by decide)).trans (by decide)),
   (((c3_dissolve_single demoStates demoCounties (fun _ => demoPlaces)
      "TX" "dallas" "TX").2.2 "48" (by decide)).2 (by decide)).trans
        (by decide)⟩

/-- C9: when every STATEFP in the states dataset is a string of exactly
two decimal digits, a successful resolution makes the STATEFP filter of
the state variant non-empty, so the state variant's empty-result branch
(`No state found`) is unreachable: the build succeeds, and any error it
can raise is a resolution error. -/
theorem c9_state_branch_total (states : GeoFrame StateRow)
    (counties : GeoFrame CountyRow) (v : String)
    (hfp : ∀ r ∈ states.rows, r.STATEFP.toList.length = 2 ∧
      ∀ ch ∈ r.STATEFP.toList, ch.isDigit = true) :
    (∀ fips, resolve_state_fips states.rows (pyTrim v) = .ok fips →
        states.rows.filter (fun r => r.STATEFP == fips) ≠ [] ∧
        ∃ b, build_boundary "state" v states counties = .ok b)
  ∧ (∀ e, build_boundary "state" v states counties = .error e →
        e = .resolution (resolveErrMsg (pyTrim v))) := by
  have key : ∀ fips, resolve_state_fips states.rows (pyTrim v) = .ok fips →
      states.rows.filter (fun r => r.STATEFP == fips) ≠ [] := by
    intro fips hres
    obtain ⟨r, hr, -, hz⟩ := resolve_ok_shape states.rows (pyTrim v) fips hres
    have hfix : fips = r.STATEFP := by
      rw [hz, zfill_two_of_length_two r.STATEFP (hfp r hr).1]
    have : r ∈ states.rows.filter (fun r => r.STATEFP == fips) :=
      List.mem_filter.2 ⟨hr, by simp [hfix]⟩
    exact List.ne_nil_of_mem this
  constructor
  · intro fips hres
    refine ⟨key fips hres, ⟨states.crs, [unionAll ((states.rows.filter
      (fun r => r.STATEFP == fips)).map (fun r => r.geometry))]⟩, ?_⟩
    rw [build_boundary_state_ok v states counties fips hres,
      if_neg (fun hc => key fips hres (List.isEmpty_iff.1 hc))]
  · intro e he
    rcases hres : resolve_state_fips states.rows (pyTrim v) with e' | fips
    · rw [build_boundary_state_err v states counties e' hres] at he
      obtain rfl := Except.error.inj he
      exact (resolve_error_shape states.rows (pyTrim v) e' hres).1
    · rw [build_boundary_state_ok v states counties fips hres,
        if_neg (fun hc => key fips hres (List.isEmpty_iff.1 hc))] at he
      exact Except.noConfusion he

/-- Witness for C9: the concrete dataset has two-digit STATEFP values,
so resolving `"TX"` yields a non-empty filter and a successful build. -/
theorem c9_state_branch_total_witness :
    demoStates.rows.filter (fun r => r.STATEFP == "48") ≠ [] ∧
    ∃ b, build_boundary "state" "TX" demoStates demoCounties = .ok b :=
  (c9_state_branch_total demoStates demoCounties "TX" (by decide)).1 "48"
    (by decide)

/-- C4: each target layer's clip attempt in `main` is wrapped in its own
catch-and-report block: the phase always emits exactly one report per
layer (both clips are attempted), the counties report does not depend on
the roads outcome and vice versa, and a failure is caught and reported
in place, never propagated to abort the other layer. -/
theorem c4_clip_isolation (r c : Except String Unit) :
    (clipPhase r c).length = 2
  ∧ (∀ r2, (clipPhase r c).drop 1 = (clipPhase r2 c).drop 1)
  ∧ (∀ c2, (clipPhase r c).take 1 = (clipPhase r c2).take 1)
  ∧ (∀ e, r = .error e →
      clipPhase r c = ("Error clipping roads: " ++ e)
        :: attemptClip "counties" (CLIPPED_FOLDER ++ "/counties_clipped.shp") c)
  ∧ (∀ e, c = .error e →
      (clipPhase r c).drop 1 = ["Error clipping counties: " ++ e]) := by
  refine ⟨?_, ?_, ?_, ?_, ?_⟩
  · cases r <;> cases c <;> rfl
  · intro r2
    cases r <;> cases r2 <;> cases c <;> rfl
  · intro c2
    cases c <;> cases c2 <;> cases r <;> rfl
  · rintro e rfl
    cases c <;> rfl
  · rintro e rfl
    cases r <;> rfl

/-- Witness for C4: a failing roads clip is reported in place and the
counties attempt still happens. -/
theorem c4_clip_isolation_witness :
    clipPhase (.error "boom") (.ok ()) = ("Error clipping roads: " ++ "boom")
      :: attemptClip "counties" (CLIPPED_FOLDER ++ "/counties_clipped.shp")
          (.ok ()) :=
  (c4_clip_isolation (.error "boom") (.ok ())).2.2.2.1 "boom" rfl

/-- The rows of a clip result are the `gpd.clip` of the base rows
against the (reprojected if needed) boundary mask. -/
theorem clip_rows_eq (toCrs : String → Geom → Geom) (base : Layer)
    (b : BoundaryGDF) :
    (clip_layer_to_boundary toCrs base b).rows =
      gpdClip base.rows (unionAll
        (if base.crs ≠ b.crs then b.rows.map (toCrs base.crs) else b.rows)) := by
  unfold clip_layer_to_boundary
  by_cases h : base.crs ≠ b.crs
  · rw [if_pos h, if_pos h]
  · rw [if_neg h, if_neg h]

/-- C5: the clip reprojects the boundary (never the source layer) to the
source CRS exactly when the two differ, uses the boundary unchanged when
they agree, keeps the source CRS on the output, and writes the
intersection of the source records with the boundary: every output
feature stems from an input feature and carries its non-empty
intersection with the mask. -/
theorem c5_clip_reprojection (toCrs : String → Geom → Geom) (base : Layer)
    (b : BoundaryGDF) :
    (base.crs ≠ b.crs →
      clip_layer_to_boundary toCrs base b =
        ⟨base.crs, gpdClip base.rows (unionAll (b.rows.map (toCrs base.crs)))⟩)
  ∧ (base.crs = b.crs →
      clip_layer_to_boundary toCrs base b =
        ⟨base.crs, gpdClip base.rows (unionAll b.rows)⟩)
  ∧ (clip_layer_to_boundary toCrs base b).crs = base.crs
  ∧ (∀ r', r' ∈ (clip_layer_to_boundary toCrs base b).rows →
      ∃ r ∈ base.rows, r'.fid = r.fid ∧ r'.geometry ≠ ∅ ∧
        r'.geometry ⊆ r.geometry ∧
        r'.geometry = r.geometry ∩ unionAll
          (if base.crs ≠ b.crs then b.rows.map (toCrs base.crs) else b.rows)) := by
  refine ⟨?_, ?_, ?_, ?_⟩
  · intro h
    unfold clip_layer_to_boundary
    rw [if_pos h]
  · intro h
    unfold clip_layer_to_boundary
    rw [if_neg (fun hc => hc h)]
  · unfold clip_layer_to_boundary
    rfl
  · intro r' hr'
    rw [clip_rows_eq] at hr'
    generalize hM : unionAll
      (if base.crs ≠ b.crs then b.rows.map (toCrs base.crs) else b.rows) = M
      at hr' ⊢
    obtain ⟨r, hrmem, hf⟩ := List.mem_filterMap.1 hr'
    by_cases hg : r.geometry ∩ M = ∅
    · simp [hg] at hf
    · simp only [if_neg hg] at hf
      obtain rfl := Option.some.inj hf
      exact ⟨r, hrmem, rfl, hg, Finset.inter_subset_left, rfl⟩

/-- Witness for C5: a layer and a boundary in different CRSs; the
boundary is reprojected, the first feature survives with its
intersection geometry, the second is dropped. -/
theorem c5_clip_reprojection_witness :
    clip_layer_to_boundary demoToCrs demoLayer demoBoundary =
      ⟨demoLayer.crs, gpdClip demoLayer.rows
        (unionAll (demoBoundary.rows.map (demoToCrs demoLayer.crs)))⟩
  ∧ gpdClip demoLayer.rows
      (unionAll (demoBoundary.rows.map (demoToCrs demoLayer.crs))) =
      [⟨0, {(100, 0)}⟩] :=
  ⟨(c5_clip_reprojection demoToCrs demoLayer demoBoundary).1 (by decide),
   by decide⟩

/-- C6: when `downloads/<name>.zip` already exists, `download_zip`
returns exactly that path with zero network requests and the filesystem
— hence the cached file's contents — unchanged. -/
theorem c6_cache_hit (net : String → Response) (fs : FS) (name url : String)
    (h : (fs.lookup (downloadPath name)).isSome = true) :
    download_zip net fs name url = ⟨.ok (downloadPath name), fs, 0⟩ := by
  unfold download_zip
  rw [if_pos h]

/-- Witness for C6: a pre-populated cache entry is returned unchanged
with no network call, even though the network would answer. -/
theorem c6_cache_hit_witness :
    download_zip (fun _ => ⟨200, "fresh", ""⟩)
      [(downloadPath "states", "cached")] "states" "http://x" =
      ⟨.ok (downloadPath "states"), [(downloadPath "states", "cached")], 0⟩ :=
  c6_cache_hit (fun _ => ⟨200, "fresh", ""⟩)
    [(downloadPath "states", "cached")] "states" "http://x" (by decide)

/-- C10: on a cache miss answered with a 4xx/5xx status, `download_zip`
raises the download error before the output file is opened: the
filesystem is unchanged, no file appears at the cache path, and a later
call for the same name still misses the cache and performs a network
request again. -/
theorem c10_download_error (net : String → Response) (fs : FS)
    (name url : String)
    (hmiss : fs.lookup (downloadPath name) = none)
    (hbad : isErrorStatus (net url).status = true) :
    download_zip net fs name url =
      ⟨.error (.download (downloadErrMsg name url (net url).errText)), fs, 1⟩
  ∧ (download_zip net fs name url).fs.lookup (downloadPath name) = none
  ∧ (∀ net2 : String → Response,
      1 ≤ (download_zip net2 (download_zip net fs name url).fs name
        url).networkCalls) := by
  have h1 : download_zip net fs name url =
      ⟨.error (.download (downloadErrMsg name url (net url).errText)), fs, 1⟩ := by
    unfold download_zip
    rw [if_neg (by simp [hmiss]), if_pos hbad]
  refine ⟨h1, ?_, ?_⟩
  · rw [h1]
    exact hmiss
  · intro net2
    rw [h1]
    unfold download_zip
    rw [if_neg (by simp [hmiss])]
    by_cases hb2 : isErrorStatus (net2 url).status = true
    · rw [if_pos hb2]
    · rw [if_neg hb2]

/-- Witness for C10: an empty cache and a 404 response leave the
filesystem empty and raise the download error. -/
theorem c10_download_error_witness :
    download_zip (fun _ => ⟨404, "", "404 Client Error"⟩) [] "states" "http://x"
      = ⟨.error (.download (downloadErrMsg "states" "http://x"
          "404 Client Error")), [], 1⟩ :=
  (c10_download_error (fun _ => ⟨404, "", "404 Client Error"⟩) [] "states"
    "http://x" rfl (by decide)).1

/-- The walk of a fresh extraction finds a shapefile exactly when the
archive holds one, and it is the first such member in order. -/
theorem find_shapefile_walk (folder : String) (ar : List ZipEntry) :
    find_shapefile (walkListing folder ar) =
      (ar.find? (fun e => pyEndsWith (pyLower e.fname) ".shp")).map
        (fun e => joinPath (entryRoot folder e.dir) e.fname) := by
  induction ar with
  | nil => rfl
  | cons e tl ih =>
    by_cases hp : pyEndsWith (pyLower e.fname) ".shp" = true
    · simp [find_shapefile, walkListing, List.find?_cons, hp]
    · simp only [find_shapefile, walkListing, List.map_cons, List.find?_cons,
        hp] at ih ⊢
      simpa [hp] using ih

/-- The result of `unzip_zip` is determined by the shapefile search over
the freshly extracted listing. -/
theorem unzip_result_eq (fs : FS) (name : String) (archive : List ZipEntry) :
    (unzip_zip fs name archive).result =
      (match find_shapefile (walkListing (extractFolder name) archive) with
       | some p => .ok p
       | none => .error (.notFound (noShpMsg (extractFolder name) name))) := by
  unfold unzip_zip
  rcases h : find_shapefile (walkListing (extractFolder name) archive)
    with _ | p <;> simp [h]

/-- The filesystem after `unzip_zip` holds every archive member under
the extraction folder (extraction happens whether or not a shapefile is
found). -/
theorem unzip_fs_eq (fs : FS) (name : String) (archive : List ZipEntry) :
    (unzip_zip fs name archive).fs =
      archive.map (fun e => (joinPath (entryRoot (extractFolder name) e.dir)
        e.fname, e.content)) ++ fs := by
  unfold unzip_zip
  rcases h : find_shapefile (walkListing (extractFolder name) archive)
    with _ | p <;> simp [h]

/-- C8: `unzip_zip` fully extracts the archive into `downloads/<name>/`
— every member lands on the filesystem under the extraction folder with
its contents — and returns the first `.shp` file in the traversal order
of the extraction folder; when the archive holds no `.shp` it raises the
not-found error naming the extraction folder. -/
theorem c8_unzip_first_shp (fs : FS) (name : String)
    (archive : List ZipEntry) :
    (∀ e ∈ archive,
      (joinPath (entryRoot (extractFolder name) e.dir) e.fname, e.content)
        ∈ (unzip_zip fs name archive).fs)
  ∧ (∀ e, archive.find? (fun e => pyEndsWith (pyLower e.fname) ".shp") =
        some e →
      (unzip_zip fs name archive).result =
        .ok (joinPath (entryRoot (extractFolder name) e.dir) e.fname))
  ∧ (archive.find? (fun e => pyEndsWith (pyLower e.fname) ".shp") = none →
      (unzip_zip fs name archive).result =
        .error (.notFound (noShpMsg (extractFolder name) name))) := by
  refine ⟨?_, ?_, ?_⟩
  · intro e he
    rw [unzip_fs_eq]
    exact List.mem_append.2 (Or.inl (List.mem_map.2 ⟨e, he, rfl⟩))
  · intro e he
    rw [unzip_result_eq, find_shapefile_walk, he]
    rfl
  · intro he
    rw [unzip_result_eq, find_shapefile_walk, he]
    rfl

/-- Witness for C8: a three-member archive yields its first shapefile
(under a subfolder) and extraction of a non-shapefile member is on the
filesystem; a shapefile-free archive raises the not-found error. -/
theorem c8_unzip_first_shp_witness :
    (unzip_zip [] "roads" [⟨"", "readme.txt", "t"⟩, ⟨"sub", "tl.SHP", "s"⟩,
        ⟨"", "other.shp", "o"⟩]).result =
      .ok (joinPath (entryRoot (extractFolder "roads") "sub") "tl.SHP")
  ∧ (joinPath (entryRoot (extractFolder "roads") "") "readme.txt", "t")
      ∈ (unzip_zip [] "roads" [⟨"", "readme.txt", "t"⟩, ⟨"sub", "tl.SHP", "s"⟩,
        ⟨"", "other.shp", "o"⟩]).fs
  ∧ (unzip_zip [] "counties" [⟨"", "readme.txt", "t"⟩]).result =
      .error (.notFound (noShpMsg (extractFolder "counties") "counties")) :=
  ⟨(c8_unzip_first_shp [] "roads" [⟨"", "readme.txt", "t"⟩,
      ⟨"sub", "tl.SHP", "s"⟩, ⟨"", "other.shp", "o"⟩]).2.1
      ⟨"sub", "tl.SHP", "s"⟩ (by decide),
   (c8_unzip_first_shp [] "roads" [⟨"", "readme.txt", "t"⟩,
      ⟨"sub", "tl.SHP", "s"⟩, ⟨"", "other.shp", "o"⟩]).1
      ⟨"", "readme.txt", "t"⟩ (by decide),
   (c8_unzip_first_shp [] "counties" [⟨"", "readme.txt", "t"⟩]).2.2
      (by decide)⟩

end GISStarter
